import Mathlib

/-!
Shallow embedding of the transport core in src/faust/transport/base.py.

Modelling conventions:
- Machine integers (consumer ids, offsets, the id counter) are Nat.
- A weak reference is modelled by the identity of the observed event
  (a Nat) together with an external liveness snapshot
  live : Nat → Bool; the Python test `ref() is None` corresponds to
  `live r.event = false` (the event has been reclaimed).
- The coroutine `_commit` supplied by a backend is a parameter of type
  Nat → Except ε Unit; an Except.error models the coroutine raising.
- Generators are materialised as lists, matching the call
  `list(self._current_offsets())` on line 76.
-/

set_option autoImplicit false

/-- MessageTag (base.py lines 15-17): NamedTuple of consumer_id and offset. -/
structure MessageTag where
  consumer_id : Nat
  offset : Nat
deriving DecidableEq, Repr

/-- EventRef (base.py lines 20-26): a weak reference to an event plus a tag.
The event field records the identity of the observed event object; whether
the weak reference still resolves is given externally by a liveness
snapshot. The callback argument (always Consumer.on_event_ready) carries no
state and is not modelled as data. -/
structure EventRef where
  event : Nat
  tag : MessageTag
deriving DecidableEq, Repr

/-- Topic descriptor as used by Consumer.__init__ (base.py line 51): a
topics collection and a pattern, each possibly None. -/
structure Topic where
  topics : Option (List String)
  pattern : Option String
deriving DecidableEq, Repr

/-- Python truthiness of the topics field: None and an empty collection are
falsy, a non-empty collection is truthy. -/
def topicsTruthy : Option (List String) → Bool
  | none => false
  | some ts => !ts.isEmpty

/-- Python truthiness of the pattern field: None and the empty string are
falsy, a non-empty string is truthy. -/
def patternTruthy : Option String → Bool
  | none => false
  | some p => !p.isEmpty

/-- The mutable per-consumer state relevant to the claims: the assigned id,
the topic, and the _dirty_events list (base.py lines 30, 31, 40). The
transport and callback references play no role in any claim and are not
modelled as data. -/
structure ConsumerState where
  id : Nat
  topic : Topic
  dirtyEvents : List EventRef
deriving DecidableEq, Repr

/-- Consumer.commit_interval (base.py line 35). The Python value is the
float 30.0; only its positivity and its role as the per-cycle delay matter,
so it is modelled as the natural number 30. -/
def commit_interval : Nat := 30

/-- Errors Consumer.__init__ can raise: the failed assert on line 46
(callback is None) and the TypeError on line 52 (topic sets both topics and
pattern). -/
inductive InitError where
  | assertionError
  | typeError
deriving DecidableEq, Repr

/-- Consumer.__init__ (base.py lines 42-54). Takes the current value of the
process-wide _consumer_ids counter and returns the counter value after the
call together with the outcome. Mirrors the statement order of the source:
the assert on the callback runs first, then the id is drawn from the
counter, then the topic check may raise TypeError, and only then is the
dirty list initialised. The call to Service.__init__ on line 54 is outside
the modelled core. -/
def consumerInit (counter : Nat) (callbackIsNone : Bool) (topic : Topic) :
    Nat × Except InitError ConsumerState :=
  if callbackIsNone then
    (counter, Except.error InitError.assertionError)
  else
    let id := counter
    let counter := counter + 1
    if topicsTruthy topic.topics && patternTruthy topic.pattern then
      (counter, Except.error InitError.typeError)
    else
      (counter, Except.ok { id := id, topic := topic, dirtyEvents := [] })

/-- A sequence of Consumer constructions sharing the one process-wide id
counter (base.py line 38 is a class attribute, so all Consumers from all
Transports draw from the same counter). Each input gives the callback
None-ness and the topic of one construction; the outputs are returned in
construction order. -/
def constructMany (counter : Nat) :
    List (Bool × Topic) → Nat × List (Except InitError ConsumerState)
  | [] => (counter, [])
  | (cbNone, t) :: rest =>
    let r := consumerInit counter cbNone t
    let rs := constructMany r.1 rest
    (rs.1, r.2 :: rs.2)

/-- The ids of the successfully constructed Consumers, in construction
order. -/
def assignedIds : List (Except InitError ConsumerState) → List Nat
  | [] => []
  | Except.ok s :: rest => s.id :: assignedIds rest
  | Except.error _ :: rest => assignedIds rest

/-- Consumer.track_event (base.py lines 59-65): appends to _dirty_events an
EventRef observing the given event, tagged MessageTag(self.id, offset). -/
def track_event (s : ConsumerState) (event : Nat) (offset : Nat) :
    ConsumerState :=
  { s with dirtyEvents :=
      s.dirtyEvents ++
        [{ event := event,
           tag := { consumer_id := s.id, offset := offset } }] }

/-- Consumer.on_event_ready (base.py lines 67-68): prints the acked tag.
The returned pair is the unchanged consumer state together with the tag
carried by the emitted acknowledgment line; the method touches nothing
else. -/
def on_event_ready (s : ConsumerState) (ref : EventRef) :
    ConsumerState × MessageTag :=
  (s, ref.tag)

/-- Consumer._current_offsets (base.py lines 82-86), materialised as a
list. The for loop body tests the head entry and then hits an unconditional
break, so only the first entry of _dirty_events is ever examined: its
offset is yielded when its weak reference no longer resolves. -/
def currentOffsets (live : Nat → Bool) : List EventRef → List Nat
  | [] => []
  | r :: _ => if live r.event then [] else [r.tag.offset]

/-- One iteration of the while loop of Consumer._commit_handler (base.py
lines 76-79): offsets = list(self._current_offsets()); if non-empty, await
self._commit(offsets[-1]). The first component records the _commit calls
made during the iteration; the second is the outcome of the awaited
coroutine (there is no try/except around it, so an error propagates). -/
def commitHandlerCycle {ε : Type} (commit : Nat → Except ε Unit)
    (live : Nat → Bool) (s : ConsumerState) : List Nat × Except ε Unit :=
  let offsets := currentOffsets live s.dirtyEvents
  match offsets.getLast? with
  | some o => ([o], commit o)
  | none => ([], Except.ok ())

/-- The while loop of Consumer._commit_handler run for a given number of
scheduled cycles, accumulating the _commit calls. An exception escaping one
cycle is not caught anywhere in the coroutine, so it ends the loop: no
later cycle runs. The liveness snapshot and dirty list are held fixed
across the cycles, which suffices for the claims about one wake and about
error propagation. -/
def commitHandlerRun {ε : Type} (commit : Nat → Except ε Unit)
    (live : Nat → Bool) (s : ConsumerState) :
    Nat → List Nat × Except ε Unit
  | 0 => ([], Except.ok ())
  | n + 1 =>
    let c := commitHandlerCycle commit live s
    match c.2 with
    | Except.error e => (c.1, Except.error e)
    | Except.ok _ =>
      let rest := commitHandlerRun commit live s n
      (c.1 ++ rest.1, rest.2)

/-- Elapsed times, measured from the moment the task scheduled by
register_timers first runs, at which _commit_handler performs a commit
check (the read of _current_offsets on line 76), starting from elapsed time
t. Line 74 calls asyncio.sleep(self.commit_interval) without awaiting the
returned coroutine, so no time passes before the first check; line 80
awaits one full interval after each check. -/
def commitCheckTimesFrom (interval : Nat) (t : Nat) : Nat → List Nat
  | 0 => []
  | n + 1 => t :: commitCheckTimesFrom interval (t + interval) n

/-- Check times of the first given number of cycles of _commit_handler,
from the start of the task. -/
def commitCheckTimes (interval : Nat) (cycles : Nat) : List Nat :=
  commitCheckTimesFrom interval 0 cycles

/-- C1: every offset yielded by the offset-safety scan belongs to a tracked
entry whose observed event has been reclaimed (the weak reference no longer
resolves), and the scan never yields an offset all of whose bearing entries
are still alive. -/
theorem scan_yields_only_reclaimed (live : Nat → Bool) (l : List EventRef)
    (o : Nat) :
    (o ∈ currentOffsets live l →
      ∃ r, r ∈ l ∧ r.tag.offset = o ∧ live r.event = false) ∧
    ((∀ r, r ∈ l → r.tag.offset = o → live r.event = true) →
      o ∉ currentOffsets live l) := by
  constructor
  · intro h
    cases l with
    | nil => simp [currentOffsets] at h
    | cons a t =>
      cases ha : live a.event with
      | true => simp [currentOffsets, ha] at h
      | false =>
        simp [currentOffsets, ha] at h
        exact ⟨a, List.mem_cons_self a t, h.symm, ha⟩
  · intro hall h
    cases l with
    | nil => simp [currentOffsets] at h
    | cons a t =>
      cases ha : live a.event with
      | true => simp [currentOffsets, ha] at h
      | false =>
        simp [currentOffsets, ha] at h
        have := hall a (List.mem_cons_self a t) h.symm
        simp [ha] at this

/-- Witness for C1: with a single alive tracked event at offset 5 the scan
does not yield 5. -/
theorem scan_yields_only_reclaimed_witness :
    5 ∉ currentOffsets (fun _ => true) [⟨0, ⟨0, 5⟩⟩] :=
  (scan_yields_only_reclaimed (fun _ => true) [⟨0, ⟨0, 5⟩⟩] 5).2 (by decide)

/-- Counterexample to C3: the entry observing event 1 at offset 6 sits at
position 1 of dirty_events and its event has been reclaimed, yet the next
offset-safety scan does not contain 6, because the scan never looks past
the (still alive) head entry. -/
theorem tracked_offset_in_scan_cex :
    ((⟨1, ⟨0, 6⟩⟩ : EventRef) ∈
        ([⟨0, ⟨0, 5⟩⟩, ⟨1, ⟨0, 6⟩⟩] : List EventRef)) ∧
    (fun e => e == 0) (1 : Nat) = false ∧
    6 ∉ currentOffsets (fun e => e == 0) [⟨0, ⟨0, 5⟩⟩, ⟨1, ⟨0, 6⟩⟩] := by
  decide

/-- C3 as amended: an offset tracked for an event never appears in a scan
result while the event is alive (given pairwise distinct tracked offsets),
and once the event is reclaimed its offset appears in the next scan
precisely when its entry is at the head of dirty_events; an entry at any
later position of the list, reclaimed or not, never surfaces in that scan
(again given pairwise distinct tracked offsets). -/
theorem tracked_offset_in_scan (live : Nat → Bool) (l : List EventRef)
    (r : EventRef) :
    (l.head? = some r → live r.event = false →
      r.tag.offset ∈ currentOffsets live l) ∧
    (r ∈ l → live r.event = true →
      List.Pairwise (fun a b => a.tag.offset ≠ b.tag.offset) l →
      r.tag.offset ∉ currentOffsets live l) ∧
    (r ∈ l.tail →
      List.Pairwise (fun a b => a.tag.offset ≠ b.tag.offset) l →
      r.tag.offset ∉ currentOffsets live l) := by
  refine ⟨?_, ?_, ?_⟩
  · intro hh hd
    cases l with
    | nil => simp at hh
    | cons a t =>
      simp at hh
      subst hh
      simp [currentOffsets, hd]
  · intro hm hl hp h
    cases l with
    | nil => simp [currentOffsets] at h
    | cons a t =>
      cases ha : live a.event with
      | true => simp [currentOffsets, ha] at h
      | false =>
        simp [currentOffsets, ha] at h
        rcases List.mem_cons.mp hm with rfl | hmt
        · rw [ha] at hl; exact Bool.false_ne_true hl
        · exact (List.pairwise_cons.mp hp).1 r hmt h.symm
  · intro hm hp h
    cases l with
    | nil => simp [currentOffsets] at h
    | cons a t =>
      cases ha : live a.event with
      | true => simp [currentOffsets, ha] at h
      | false =>
        simp [currentOffsets, ha] at h
        exact (List.pairwise_cons.mp hp).1 r hm h.symm

/-- Witness for C3 amended: a reclaimed head entry at offset 5 does appear
in the scan. -/
theorem tracked_offset_in_scan_witness :
    5 ∈ currentOffsets (fun _ => false) [⟨0, ⟨0, 5⟩⟩, ⟨1, ⟨0, 6⟩⟩] :=
  (tracked_offset_in_scan (fun _ => false) [⟨0, ⟨0, 5⟩⟩, ⟨1, ⟨0, 6⟩⟩]
      ⟨0, ⟨0, 5⟩⟩).1 (by decide) (by decide)

/-- C4: one invocation of the offset-safety scan depends only on the head
entry of dirty_events (the tail is never inspected), yields the head offset
exactly when the head event has been reclaimed, and always yields at most
one offset. -/
theorem scan_single_step (live : Nat → Bool) (r : EventRef)
    (t t2 : List EventRef) :
    currentOffsets live (r :: t) =
      (if live r.event then [] else [r.tag.offset]) ∧
    currentOffsets live (r :: t) = currentOffsets live (r :: t2) ∧
    (currentOffsets live (r :: t)).length ≤ 1 ∧
    currentOffsets live [] = [] := by
  refine ⟨rfl, rfl, ?_, rfl⟩
  cases h : live r.event <;> simp [currentOffsets, h]

/-- C2: one wake of the periodic commit task commits the last element of
the offset scan result when the scan is non-empty and makes no _commit call
when it is empty; in the concrete scenario of events tracked at offsets 5,
6, 7 with only the event tagged 5 reclaimed, the wake calls _commit exactly
once, with 5, and never with 6 or 7. -/
theorem commit_cycle_commits_last {ε : Type} (commit : Nat → Except ε Unit)
    (live : Nat → Bool) (s : ConsumerState) :
    ((currentOffsets live s.dirtyEvents).getLast? = none →
      (commitHandlerCycle commit live s).1 = []) ∧
    (∀ o, (currentOffsets live s.dirtyEvents).getLast? = some o →
      (commitHandlerCycle commit live s).1 = [o]) ∧
    (commitHandlerCycle commit (fun e => e != 0)
        { id := 0, topic := { topics := some ["t"], pattern := none },
          dirtyEvents := [⟨0, ⟨0, 5⟩⟩, ⟨1, ⟨0, 6⟩⟩, ⟨2, ⟨0, 7⟩⟩] }).1
      = [5] ∧
    6 ∉ (commitHandlerCycle commit (fun e => e != 0)
        { id := 0, topic := { topics := some ["t"], pattern := none },
          dirtyEvents := [⟨0, ⟨0, 5⟩⟩, ⟨1, ⟨0, 6⟩⟩, ⟨2, ⟨0, 7⟩⟩] }).1 ∧
    7 ∉ (commitHandlerCycle commit (fun e => e != 0)
        { id := 0, topic := { topics := some ["t"], pattern := none },
          dirtyEvents := [⟨0, ⟨0, 5⟩⟩, ⟨1, ⟨0, 6⟩⟩, ⟨2, ⟨0, 7⟩⟩] }).1 := by
  refine ⟨?_, ?_, rfl, ?_, ?_⟩
  · intro h
    simp [commitHandlerCycle, h]
  · intro o h
    simp [commitHandlerCycle, h]
  · rw [show (commitHandlerCycle commit (fun e => e != 0)
        { id := 0, topic := { topics := some ["t"], pattern := none },
          dirtyEvents := [⟨0, ⟨0, 5⟩⟩, ⟨1, ⟨0, 6⟩⟩, ⟨2, ⟨0, 7⟩⟩] }).1
        = [5] from rfl]
    decide
  · rw [show (commitHandlerCycle commit (fun e => e != 0)
        { id := 0, topic := { topics := some ["t"], pattern := none },
          dirtyEvents := [⟨0, ⟨0, 5⟩⟩, ⟨1, ⟨0, 6⟩⟩, ⟨2, ⟨0, 7⟩⟩] }).1
        = [5] from rfl]
    decide

/-- Witness for C2: a wake over an empty scan (single alive entry) makes no
_commit call. -/
theorem commit_cycle_commits_last_witness :
    (commitHandlerCycle (fun _ => (Except.ok () : Except Unit Unit))
        (fun _ => true)
        { id := 0, topic := { topics := some ["t"], pattern := none },
          dirtyEvents := [⟨0, ⟨0, 5⟩⟩] }).1 = [] :=
  (commit_cycle_commits_last (fun _ => (Except.ok () : Except Unit Unit))
      (fun _ => true)
      { id := 0, topic := { topics := some ["t"], pattern := none },
        dirtyEvents := [⟨0, ⟨0, 5⟩⟩] }).1 (by decide)

/-- Counterexample to C5: with a head entry reclaimed at offset 5 and a
backend whose _commit always raises, running the periodic task for two
scheduled cycles makes only the one failing call and ends with the error
escaping the task: the error is not caught, the loop does not reach the
second cycle and there is no retry. -/
theorem commit_error_escapes_cex :
    commitHandlerRun (fun _ => (Except.error () : Except Unit Unit))
        (fun _ => false)
        { id := 0, topic := { topics := some ["t"], pattern := none },
          dirtyEvents := [⟨0, ⟨0, 5⟩⟩] } 2 =
      ([5], Except.error ()) := rfl

/-- C5 as amended: an error raised by _commit during one wake is not
caught inside the periodic task; it propagates out of the while loop,
terminating the task, so no later cycle runs and the failed commit is
never retried. -/
theorem commit_error_terminates_task {ε : Type} (commit : Nat → Except ε Unit)
    (live : Nat → Bool) (s : ConsumerState) (e : ε) (n : Nat)
    (h : (commitHandlerCycle commit live s).2 = Except.error e) :
    commitHandlerRun commit live s (n + 1) =
      ((commitHandlerCycle commit live s).1, Except.error e) := by
  simp [commitHandlerRun, h]

/-- Witness for C5 amended: a failing commit on the first of one scheduled
cycle yields exactly that call and the escaped error. -/
theorem commit_error_terminates_task_witness :
    commitHandlerRun (fun _ => (Except.error () : Except Unit Unit))
        (fun _ => false)
        { id := 0, topic := { topics := some ["t"], pattern := none },
          dirtyEvents := [⟨1, ⟨0, 9⟩⟩] } 1 =
      ([9], Except.error ()) :=
  commit_error_terminates_task (fun _ => (Except.error () : Except Unit Unit))
    (fun _ => false)
    { id := 0, topic := { topics := some ["t"], pattern := none },
      dirtyEvents := [⟨1, ⟨0, 9⟩⟩] } () 0 rfl

/-- C6 fails on the code: line 74 calls asyncio.sleep(self.commit_interval)
without awaiting the returned coroutine, so the first commit check of the
scheduled task happens at elapsed time 0, strictly earlier than
commit_interval after startup. -/
theorem first_commit_check_immediate (n : Nat) :
    (commitCheckTimes commit_interval (n + 1)).head? = some 0 ∧
    0 < commit_interval :=
  ⟨rfl, by decide⟩

/-- C9: on_event_ready emits an acknowledgment carrying exactly the tag of
the given ref and leaves the consumer state, in particular dirty_events,
unchanged, making no _commit call; track_event appends one EventRef tagged
with the consumer id and the given offset to the tail of dirty_events and
changes nothing else. -/
theorem ack_and_track_effects (s : ConsumerState) (r : EventRef)
    (e o : Nat) :
    on_event_ready s r = (s, r.tag) ∧
    (track_event s e o).dirtyEvents =
      s.dirtyEvents ++
        [{ event := e, tag := { consumer_id := s.id, offset := o } }] ∧
    (track_event s e o).id = s.id ∧
    (track_event s e o).topic = s.topic :=
  ⟨rfl, rfl, rfl, rfl⟩

/-- Helper: a successful construction assigns the current counter value as
the id and leaves the counter advanced by one. -/
theorem consumerInit_ok (c : Nat) (cb : Bool) (t : Topic) (s : ConsumerState)
    (h : (consumerInit c cb t).2 = Except.ok s) :
    s.id = c ∧ (consumerInit c cb t).1 = c + 1 := by
  cases cb with
  | true => simp [consumerInit] at h
  | false =>
    cases ht : topicsTruthy t.topics && patternTruthy t.pattern with
    | true => simp [consumerInit, ht] at h
    | false =>
      simp [consumerInit, ht] at h
      exact ⟨by rw [← h], by simp [consumerInit, ht]⟩

/-- Helper: a construction never decreases the id counter. -/
theorem consumerInit_counter_ge (c : Nat) (cb : Bool) (t : Topic) :
    c ≤ (consumerInit c cb t).1 := by
  cases cb with
  | true => simp [consumerInit]
  | false =>
    simp [consumerInit]
    split <;> omega

/-- Helper: every id assigned by a construction sequence starting at
counter value c is at least c. -/
theorem assignedIds_ge (c : Nat) (l : List (Bool × Topic)) :
    ∀ i ∈ assignedIds (constructMany c l).2, c ≤ i := by
  induction l generalizing c with
  | nil => intro i hi; simp [constructMany, assignedIds] at hi
  | cons p rest ih =>
    obtain ⟨cb, t⟩ := p
    intro i hi
    have hcons : (constructMany c ((cb, t) :: rest)).2 =
        (consumerInit c cb t).2 ::
          (constructMany (consumerInit c cb t).1 rest).2 := rfl
    rw [hcons] at hi
    cases hr : (consumerInit c cb t).2 with
    | ok s =>
      rw [hr] at hi
      simp [assignedIds] at hi
      rcases hi with rfl | hi
      · exact (consumerInit_ok c cb t s hr).1.ge
      · exact le_trans (consumerInit_counter_ge c cb t) (ih _ i hi)
    | error err =>
      rw [hr] at hi
      simp [assignedIds] at hi
      exact le_trans (consumerInit_counter_ge c cb t) (ih _ i hi)

/-- Helper: the assigned ids of a construction sequence are pairwise
strictly increasing in construction order. -/
theorem assignedIds_pairwise (c : Nat) (l : List (Bool × Topic)) :
    List.Pairwise (· < ·) (assignedIds (constructMany c l).2) := by
  induction l generalizing c with
  | nil => simp [constructMany, assignedIds]
  | cons p rest ih =>
    obtain ⟨cb, t⟩ := p
    have hcons : (constructMany c ((cb, t) :: rest)).2 =
        (consumerInit c cb t).2 ::
          (constructMany (consumerInit c cb t).1 rest).2 := rfl
    rw [hcons]
    cases hr : (consumerInit c cb t).2 with
    | error err => simpa [assignedIds] using ih (consumerInit c cb t).1
    | ok s =>
      simp only [assignedIds]
      refine List.Pairwise.cons ?_ (ih _)
      intro j hj
      have h1 := assignedIds_ge (consumerInit c cb t).1 rest j hj
      have h2 := (consumerInit_ok c cb t s hr).1
      have h3 := (consumerInit_ok c cb t s hr).2
      omega

/-- C8: across any sequence of Consumer constructions drawing from the one
process-wide _consumer_ids counter (shared by all Transports), the ids of
the constructed Consumers are strictly increasing in construction order and
hence pairwise distinct. -/
theorem consumer_ids_unique_increasing (c : Nat) (l : List (Bool × Topic)) :
    List.Pairwise (· < ·) (assignedIds (constructMany c l).2) ∧
    List.Pairwise (· ≠ ·) (assignedIds (constructMany c l).2) :=
  ⟨assignedIds_pairwise c l,
    (assignedIds_pairwise c l).imp fun h => Nat.ne_of_lt h⟩

/-- Counterexample to C7: constructing from counter value 0 with a
descriptor that sets both topics and pattern does raise the error, but not
before any other effect: the process-wide consumer-id counter has moved off
0 by the time the error is raised. -/
theorem construction_error_not_effect_free_cex :
    (consumerInit 0 false
        { topics := some ["orders"], pattern := some "ord" }).2 =
      Except.error InitError.typeError ∧
    (consumerInit 0 false
        { topics := some ["orders"], pattern := some "ord" }).1 ≠ 0 :=
  ⟨rfl, by decide⟩

/-- C7 as amended: with a non-null callback, construction succeeds for
every topics-only or pattern-only descriptor and fails by raising TypeError
for every descriptor setting both — but in both cases only after the
process-wide consumer-id counter has been advanced, so the failure is not
free of other effects. -/
theorem construction_checks_topic (c : Nat) (t : Topic) :
    ((topicsTruthy t.topics = true ∧ patternTruthy t.pattern = false) ∨
      (topicsTruthy t.topics = false ∧ patternTruthy t.pattern = true) →
      consumerInit c false t =
        (c + 1, Except.ok { id := c, topic := t, dirtyEvents := [] })) ∧
    (topicsTruthy t.topics = true ∧ patternTruthy t.pattern = true →
      consumerInit c false t = (c + 1, Except.error InitError.typeError)) := by
  constructor
  · rintro (⟨h1, h2⟩ | ⟨h1, h2⟩) <;> simp [consumerInit, h1, h2]
  · rintro ⟨h1, h2⟩
    simp [consumerInit, h1, h2]

/-- Witness for C7 amended: a topics-only descriptor constructs
successfully from counter value 0. -/
theorem construction_checks_topic_witness :
    consumerInit 0 false { topics := some ["orders"], pattern := none } =
      (1, Except.ok
        { id := 0,
          topic := { topics := some ["orders"], pattern := none },
          dirtyEvents := [] }) :=
  (construction_checks_topic 0
      { topics := some ["orders"], pattern := none }).1 (Or.inl (by decide))

/-- C10: a construction that fails on a both-set topic descriptor has
already advanced the process-wide consumer-id counter before raising, so
the failure consumes the id equal to the old counter value and any
subsequently constructed Consumer receives a strictly greater id. -/
theorem failed_construction_consumes_id (c : Nat) (t tNext : Topic)
    (hb : topicsTruthy t.topics = true ∧ patternTruthy t.pattern = true) :
    (consumerInit c false t).2 = Except.error InitError.typeError ∧
    (consumerInit c false t).1 = c + 1 ∧
    ∀ s, (consumerInit (consumerInit c false t).1 false tNext).2 =
        Except.ok s → c < s.id := by
  obtain ⟨h1, h2⟩ := hb
  refine ⟨by simp [consumerInit, h1, h2], by simp [consumerInit, h1, h2], ?_⟩
  intro s hs
  have hc1 : (consumerInit c false t).1 = c + 1 := by
    simp [consumerInit, h1, h2]
  rw [hc1] at hs
  have hid := (consumerInit_ok (c + 1) false tNext s hs).1
  omega

/-- Witness for C10: from counter value 0, a failed both-set construction
consumes id 0 and the next (topics-only) construction receives id 1. -/
theorem failed_construction_consumes_id_witness :
    (consumerInit 0 false
        { topics := some ["a"], pattern := some "p" }).2 =
      Except.error InitError.typeError ∧
    (consumerInit 0 false
        { topics := some ["a"], pattern := some "p" }).1 = 1 ∧
    0 < ({ id := 1, topic := { topics := some ["b"], pattern := none },
           dirtyEvents := [] } : ConsumerState).id := by
  have h := failed_construction_consumes_id 0
    { topics := some ["a"], pattern := some "p" }
    { topics := some ["b"], pattern := none } (by decide)
  exact ⟨h.1, h.2.1, h.2.2 _ rfl⟩
